import Mathlib

/-!
Shallow embedding of the multicore kernel-thread concurrency core of the
SOS kernel (bring-up, execution contexts, per-core processor, scheduler
surface), together with theorems settling the specification claims.

Machine integers (`usize`) are modelled as `Nat`; heap addresses are
explicit `Nat` parameters supplied by the (nondeterministic) allocator;
uninitialized memory contents are an explicit `junk` parameter.
-/

namespace SOS

/-! ## Execution context (`src/sched/context.rs`) -/

/-- Size in bytes of a `usize` machine word on x86_64. -/
def wordSize : Nat := 8

/-- Mirrors `RawContext`: the callee-saved registers plus the stack
pointer, in the fixed layout addressed by `ctx_switch`. -/
structure RawContext where
  r15 : Nat
  r14 : Nat
  r13 : Nat
  r12 : Nat
  rbx : Nat
  rbp : Nat
  rsp : Nat
  deriving Repr, DecidableEq

/-- An owned stack allocation: base address, size in bytes, and the
word-granular memory contents (`mem a` is the 8-byte word whose lowest
byte lives at address `a`).  Mirrors the `_stack: Box<[u8]>` field of
`ContextImpl`. -/
structure StackAlloc where
  base : Nat
  size : Nat
  mem : Nat → Nat

/-- Mirrors `ContextImpl`: a `RawContext` plus the owned stack buffer.
Every `ContextImpl`, by layout, carries a stack allocation. -/
structure ContextImpl where
  raw : RawContext
  stack : StackAlloc

/-- Mirrors `ContextImpl::new_with_entry(stack_size, entry_fn)`: allocate
`stack_size` bytes (at allocator-chosen `base`, prior contents `junk`),
write `entry_fn`'s address into the word at `top - 8`, and return a
context whose saved registers are zero and whose `rsp` is `top - 8`. -/
def ContextImpl.new_with_entry (stack_size entry_fn base : Nat)
    (junk : Nat → Nat) : ContextImpl :=
  let top := base + stack_size
  let new_rsp := top - wordSize
  { raw := { r15 := 0, r14 := 0, r13 := 0, r12 := 0, rbx := 0, rbp := 0,
             rsp := new_rsp },
    stack := { base := base, size := stack_size,
               mem := fun a => if a = new_rsp then entry_fn else junk a } }

/-- The visible machine register state immediately after `ctx_switch`'s
`ret` instruction has executed with the freshly loaded context `new`:
the callee-saved registers come from `new`, `ret` pops the word at
`new.rsp` into `rip` and bumps `rsp` by one word.  Mirrors the load half
of the `ctx_switch` assembly. -/
structure Machine where
  r15 : Nat
  r14 : Nat
  r13 : Nat
  r12 : Nat
  rbx : Nat
  rbp : Nat
  rsp : Nat
  rip : Nat
  deriving Repr, DecidableEq

/-- State after switching into `new` whose stack memory is `mem`. -/
def ctx_switch_load (mem : Nat → Nat) (new : RawContext) : Machine :=
  { r15 := new.r15, r14 := new.r14, r13 := new.r13, r12 := new.r12,
    rbx := new.rbx, rbp := new.rbp,
    rsp := new.rsp + wordSize, rip := mem new.rsp }

/-- Mirrors `create_loop_context_for_thread_pool`: the per-core
idle/dispatch-loop context is built by `ContextImpl::new_with_entry`
with a `16 * 1024`-byte stack and entry `context_loop` (whose code
address is the parameter `context_loop_addr`). -/
def create_loop_context_for_thread_pool (context_loop_addr base : Nat)
    (junk : Nat → Nat) : ContextImpl :=
  ContextImpl.new_with_entry (16 * 1024) context_loop_addr base junk

/-! ## Theorems for claims C2 and C4 -/

/-- C2: for every `stack_size` (of at least one word) and `entry_fn`,
`ContextImpl::new_with_entry(stack_size, entry_fn)` allocates a stack of
exactly `stack_size` bytes, writes `entry_fn`'s address into the top
word of that stack, zero-initializes all saved callee-saved registers,
and sets the saved stack pointer to `top - word_size`, so that the first
switch into the context begins executing `entry_fn`. -/
theorem new_with_entry_spec (stack_size entry_fn base : Nat)
    (junk : Nat → Nat) (hsz : wordSize ≤ stack_size) :
    let c := ContextImpl.new_with_entry stack_size entry_fn base junk
    c.stack.size = stack_size ∧
    c.raw.rsp = base + stack_size - wordSize ∧
    base ≤ c.raw.rsp ∧ c.raw.rsp + wordSize = base + stack_size ∧
    c.stack.mem c.raw.rsp = entry_fn ∧
    c.raw.r15 = 0 ∧ c.raw.r14 = 0 ∧ c.raw.r13 = 0 ∧ c.raw.r12 = 0 ∧
    c.raw.rbx = 0 ∧ c.raw.rbp = 0 ∧
    (ctx_switch_load c.stack.mem c.raw).rip = entry_fn := by
  refine ⟨rfl, rfl, ?_, ?_, ?_, rfl, rfl, rfl, rfl, rfl, rfl, ?_⟩
  · simp only [ContextImpl.new_with_entry]
    omega
  · simp only [ContextImpl.new_with_entry]
    omega
  · simp [ContextImpl.new_with_entry]
  · simp [ContextImpl.new_with_entry, ctx_switch_load]

/-- Witness for C2 at `stack_size = 16384`, `entry_fn = 42`,
`base = 4096`, zero junk. -/
theorem new_with_entry_spec_witness :
    wordSize ≤ 16384 ∧
    (ContextImpl.new_with_entry 16384 42 4096 (fun _ => 0)).raw.rsp =
      4096 + 16384 - wordSize :=
  ⟨by decide,
   ((new_with_entry_spec 16384 42 4096 (fun _ => 0) (by decide)).2).1⟩

/-- C4 counterexample: the idle/dispatch-loop context built by
`create_loop_context_for_thread_pool` does own a stack allocation — its
stack has `16 * 1024 = 16384` bytes, not zero — contradicting the claim
that only contexts backing fresh threads own a stack allocation. -/
theorem loop_context_owns_stack_counterexample :
    (create_loop_context_for_thread_pool 7 4096 (fun _ => 0)).stack.size
      = 16384 ∧
    ¬ ((create_loop_context_for_thread_pool 7 4096 (fun _ => 0)).stack.size
      = 0) :=
  ⟨rfl, by decide⟩

/-- C4 (amended): every context, the idle/dispatch-loop context
included, owns a stack allocation: `create_loop_context_for_thread_pool`
builds the loop context through `ContextImpl::new_with_entry` with a
nonempty stack of `16 * 1024` bytes. -/
theorem loop_context_stack_spec (context_loop_addr base : Nat)
    (junk : Nat → Nat) :
    (create_loop_context_for_thread_pool context_loop_addr base junk).stack.size
      = 16 * 1024 ∧
    0 < (create_loop_context_for_thread_pool context_loop_addr base junk).stack.size ∧
    create_loop_context_for_thread_pool context_loop_addr base junk =
      ContextImpl.new_with_entry (16 * 1024) context_loop_addr base junk := by
  refine ⟨rfl, ?_, rfl⟩
  show (0 : Nat) < 16 * 1024
  decide

/-! ## Processor (`src/sched/processor.rs`)

A `Context` held by the processor is modelled as an opaque token of an
arbitrary type `Ctx`: `switch_to` saves registers inside the box but the
box itself (the owned `Box<dyn Context>`) keeps its identity across a
suspend/resume round trip. -/

/-- Mirrors `ProcessorInner`: core id, the running `(Tid, Context)`
slot, the dispatch-loop context, and the shared `ThreadPool` handle
(modelled by an opaque `Nat` identity for the `Arc`). -/
structure ProcessorInner (Ctx : Type) where
  id : Nat
  thread : Option (Nat × Ctx)
  loop_context : Ctx
  manager : Nat
  deriving Repr, DecidableEq

/-- A context switch performed by `yield_now`: control leaves `src` and
enters `dst`. -/
structure SwitchEv (Ctx : Type) where
  src : Ctx
  dst : Ctx
  deriving Repr, DecidableEq

/-- Mirrors `Processor::tid`: the running thread's id, or the `expect`
panic when the processor is uninitialized or no thread is running. -/
def Processor.tid {Ctx : Type} (inner : Option (ProcessorInner Ctx)) :
    Except String Nat :=
  match inner with
  | none => .error "Processor is not initialized"
  | some inn =>
    match inn.thread with
    | none => .error "tid(): no thread is running on this CPU"
    | some (t, _) => .ok t

/-- Mirrors `Processor::yield_now` across a full suspend/resume round
trip.  On success it returns the switch performed (from the running
thread's context into `loop_context`), the processor state while
suspended (running slot taken out), and the processor state observed by
the thread when it is later re-scheduled and the switch returns (running
slot restored with the same pair).  With no running thread it is the
`panic!("yield_now() called with no running thread")`. -/
def Processor.yield_now {Ctx : Type} (inner : Option (ProcessorInner Ctx)) :
    Except String (SwitchEv Ctx × ProcessorInner Ctx × ProcessorInner Ctx) :=
  match inner with
  | none => .error "Processor is not initialized"
  | some inn =>
    match inn.thread with
    | none => .error "yield_now() called with no running thread"
    | some (t, ctx) =>
      .ok ({ src := ctx, dst := inn.loop_context },
           { inn with thread := none },
           { inn with thread := some (t, ctx) })

/-! ## Interrupt guard (`src/sync/interrupt.rs`)

The interrupt-enable state of the calling core is a single `Bool`
(RFLAGS bit 9).  A closure is modelled as a state transformer on this
flag so that "runs with interrupts disabled" is observable. -/

/-- Mirrors `x86_64::disable_and_store`: read RFLAGS, execute `cli`,
and return `rflags & (1 << 9)` — `512` when interrupts were enabled,
`0` when they were not.  The new flag state is disabled. -/
def disable_and_store (intf : Bool) : Nat × Bool :=
  (if intf then 512 else 0, false)

/-- Mirrors `x86_64::restore(flags)`: execute `sti` exactly when the
saved mask is nonzero, otherwise leave the flag state alone. -/
def restore (flags : Nat) (intf : Bool) : Bool :=
  if flags ≠ 0 then true else intf

/-- Mirrors `no_interrupt(f)`: save-and-disable, run `f` in the
resulting (disabled) state, restore the saved state, and return `f`'s
value. -/
def no_interrupt {α : Type} (f : Bool → α × Bool) (intf : Bool) : α × Bool :=
  let fs := disable_and_store intf
  let r := f fs.2
  (r.1, restore fs.1 r.2)

/-! ## Theorems for claims C3, C8 and C9 -/

/-- C3: when the running slot holds `(tid, ctx)`, `yield_now` takes the
pair out (the suspended state has an empty running slot), switches from
`ctx` into `loop_context`, and on re-schedule control resumes with the
processor state exactly as before the call — running slot restored to
the same pair, and `id`, `loop_context`, `manager` all unchanged. -/
theorem yield_now_round_trip {Ctx : Type} (inn : ProcessorInner Ctx)
    (t : Nat) (ctx : Ctx) (h : inn.thread = some (t, ctx)) :
    Processor.yield_now (some inn) =
      .ok ({ src := ctx, dst := inn.loop_context },
           { inn with thread := none }, inn) := by
  simp only [Processor.yield_now, h]
  rcases inn with ⟨i, th, lc, m⟩
  simp_all

/-- Witness for C3 on a concrete processor state over `Ctx := Nat`. -/
theorem yield_now_round_trip_witness :
    @Processor.yield_now Nat
        (some { id := 0, thread := some (5, 77), loop_context := 3,
                manager := 9 }) =
      .ok ({ src := 77, dst := 3 },
           { id := 0, thread := none, loop_context := 3, manager := 9 },
           { id := 0, thread := some (5, 77), loop_context := 3,
             manager := 9 }) :=
  yield_now_round_trip
    { id := 0, thread := some (5, 77), loop_context := 3, manager := 9 }
    5 77 rfl

/-- C8: on a processor whose running slot is empty, `tid()` and
`yield_now()` both panic immediately, with the panic messages of the
source, instead of being silently ignored. -/
theorem empty_running_slot_panics {Ctx : Type} (inn : ProcessorInner Ctx)
    (h : inn.thread = none) :
    Processor.tid (some inn) =
      .error "tid(): no thread is running on this CPU" ∧
    Processor.yield_now (some inn) =
      .error "yield_now() called with no running thread" := by
  constructor
  · simp [Processor.tid, h]
  · simp [Processor.yield_now, h]

/-- Witness for C8 on a concrete idle processor state over
`Ctx := Nat`. -/
theorem empty_running_slot_panics_witness :
    @Processor.tid Nat
        (some { id := 2, thread := none, loop_context := 3, manager := 9 }) =
      .error "tid(): no thread is running on this CPU" :=
  (empty_running_slot_panics
    { id := 2, thread := none, loop_context := 3, manager := 9 } rfl).1

/-- C9: for every closure `f` (that does not itself re-enable
interrupts) and every initial interrupt-enable state, `no_interrupt f`
runs `f` with interrupts disabled (`f` is applied to `false`), returns
exactly `f`'s value, and restores the caller's prior interrupt-enable
state exactly: enabled stays enabled, disabled stays disabled. -/
theorem no_interrupt_restores {α : Type} (f : Bool → α × Bool)
    (intf : Bool) (hf : (f false).2 = false) :
    (disable_and_store intf).2 = false ∧
    no_interrupt f intf = ((f false).1, intf) := by
  refine ⟨rfl, ?_⟩
  cases intf <;> simp [no_interrupt, disable_and_store, restore, hf]

/-- Witness for C9 with a concrete flag-preserving closure, in both
initial states. -/
theorem no_interrupt_restores_witness :
    no_interrupt (fun s => (41, s)) true = (41, true) ∧
    no_interrupt (fun s => (41, s)) false = (41, false) :=
  ⟨(no_interrupt_restores (fun s => (41, s)) true rfl).2,
   (no_interrupt_restores (fun s => (41, s)) false rfl).2⟩

/-! ## Timer (`src/arch/x86_64/timer.rs`) -/

/-- Mirrors `Event<T>`: a scheduled time and a payload. -/
structure TimerEvent (α : Type) where
  time : Nat
  data : α
  deriving Repr, DecidableEq

/-- Mirrors `Timer<T>`: the current tick and the queued events in
scheduled order (front of the list = front of the `VecDeque`). -/
structure Timer (α : Type) where
  tick : Nat
  timers : List (TimerEvent α)
  deriving Repr, DecidableEq

/-- Mirrors `Timer::tick`: advance the current tick by one. -/
def Timer.tickOnce {α : Type} (t : Timer α) : Timer α :=
  { t with tick := t.tick + 1 }

/-- `n` applications of `Timer::tick`. -/
def Timer.tickN {α : Type} (n : Nat) (t : Timer α) : Timer α :=
  { t with tick := t.tick + n }

/-- Mirrors `Timer::pop`: return the front event's data only when its
time equals the current tick exactly; otherwise return `None` and leave
the queue untouched. -/
def Timer.pop {α : Type} (t : Timer α) : Option α × Timer α :=
  match t.timers with
  | [] => (none, t)
  | e :: rest =>
    if e.time ≠ t.tick then (none, t)
    else (some e.data, { t with timers := rest })

/-! ## Theorem for claim C10 -/

/-- C10: `Timer::pop` delivers the front event only at its exact tick:
with an empty queue it returns `None`; when the front event's time
differs from the current tick — in particular when it is already past
due — it returns `None` and the event stays queued, and stays queued
forever after (ticks only grow); when the time equals the tick it
returns the data and dequeues the event. -/
theorem timer_pop_exact_tick {α : Type} (t : Timer α) :
    (t.timers = [] → t.pop = (none, t)) ∧
    (∀ e rest, t.timers = e :: rest →
      (e.time ≠ t.tick → t.pop = (none, t)) ∧
      (e.time = t.tick →
        t.pop = (some e.data, { tick := t.tick, timers := rest })) ∧
      (e.time < t.tick → ∀ k,
        (Timer.tickN k t).pop = (none, Timer.tickN k t))) := by
  refine ⟨fun h => by simp [Timer.pop, h], fun e rest h => ⟨?_, ?_, ?_⟩⟩
  · intro hne
    simp [Timer.pop, h, hne]
  · intro heq
    simp [Timer.pop, h, heq]
  · intro hlt k
    have hne : e.time ≠ t.tick + k := by omega
    simp [Timer.pop, Timer.tickN, h, hne]

/-- Witness for C10: a timer at tick 6 whose front event was scheduled
for tick 5 (missed) is never delivered, e.g. after 3 more ticks. -/
theorem timer_pop_exact_tick_witness :
    (Timer.tickN 3
        { tick := 6, timers := [{ time := 5, data := 0 }] }).pop =
      (none, Timer.tickN 3
        { tick := 6, timers := [{ time := (5 : Nat), data := (0 : Nat) }] }) :=
  (((timer_pop_exact_tick
      { tick := 6, timers := [{ time := 5, data := 0 }] }).2
    { time := 5, data := 0 } [] rfl).2.2 (by decide)) 3

/-! ## ThreadPool (spec model)

The crate declares `mod thread_pool` and `mod rr` (`src/sched/mod.rs`)
and every scheduler client is written against them, but those two files
are not part of the provided sources; the pool and the round-robin
policy are therefore modelled from the spec. -/

/-- Modelled from the spec: a thread's recorded state,
`Ready | Sleeping(wake_condition) | Exited(result_handle)`
(`src/sched/thread_pool.rs` is missing from the sources). -/
inductive MStatus where
  | ready
  | sleeping (wake : Nat)
  | exited (code : Nat)
  deriving Repr, DecidableEq

/-- Modelled from the spec: `ThreadInfo`, a thread's suspended context
(an opaque token, `none` while the context is checked out to a
processor or dropped) and its state. -/
structure MThreadInfo where
  context : Option Nat
  status : MStatus
  deriving Repr, DecidableEq

/-- Modelled from the spec: the `ThreadPool` table (missing file
`src/sched/thread_pool.rs`), with the round-robin ready queue of
`rr.rs` inlined: `readyq` is ordered by last dispatch, front = least
recently dispatched, and fresh threads are appended in insertion order,
so popping the front is exactly the spec's selection rule
("least-recently-dispatched Ready thread, ties broken by insertion
order"). -/
structure ThreadPool where
  threads : Nat → Option MThreadInfo
  readyq : List Nat
  next_tid : Nat

/-- The pool holding no threads. -/
def ThreadPool.empty : ThreadPool :=
  { threads := fun _ => none, readyq := [], next_tid := 0 }

/-- Modelled from the spec: `add(context) -> Tid` allocates a fresh
monotonically increasing Tid, records it Ready, and returns the id. -/
def ThreadPool.add (p : ThreadPool) (ctx : Nat) : Nat × ThreadPool :=
  (p.next_tid,
   { threads := fun i =>
       if i = p.next_tid then some { context := some ctx, status := .ready }
       else p.threads i,
     readyq := p.readyq ++ [p.next_tid],
     next_tid := p.next_tid + 1 })

/-- Modelled from the spec: `run(core_id) -> Option<(Tid, Context)>`
selects the least-recently-dispatched Ready Tid (front of `readyq`),
removes it from Ready, and hands its Context to the caller; `None` when
no thread is Ready. -/
def ThreadPool.run (p : ThreadPool) (core_id : Nat) :
    Option ((Nat × Option Nat) × ThreadPool) :=
  match p.readyq with
  | [] => none
  | t :: rest =>
    some ((t, (p.threads t).bind (fun info => info.context)),
      { threads := fun i =>
          if i = t then (p.threads t).map (fun info => { info with context := none })
          else p.threads i,
        readyq := rest,
        next_tid := p.next_tid })

/-- Modelled from the spec: `exit(tid, result)` moves a running thread
to Exited with the supplied result payload retained; an exited thread is
not in the Ready set. -/
def ThreadPool.exit (p : ThreadPool) (tid code : Nat) : ThreadPool :=
  { threads := fun i =>
      if i = tid then some { context := none, status := .exited code }
      else p.threads i,
    readyq := p.readyq.erase tid,
    next_tid := p.next_tid }

/-- `n` successive `add` calls with dummy contexts. -/
def ThreadPool.addN : Nat → ThreadPool → ThreadPool
  | 0, p => p
  | n + 1, p => ThreadPool.addN n (p.add 0).2

/-- The Tids returned by up to `n` successive `run` calls from core
`core_id`, in order. -/
def ThreadPool.runTids (p : ThreadPool) (core_id : Nat) : Nat → List Nat
  | 0 => []
  | n + 1 =>
    match p.run core_id with
    | none => []
    | some ((t, _), p') => t :: p'.runTids core_id n

/-! ## Thread API trampoline (`src/sched/std_thread.rs`) -/

/-- A heap `Box` holding a value, as produced by `Box::new`. -/
structure Boxed (α : Type) where
  val : α
  deriving Repr, DecidableEq

/-- The calls the `kernel_thread_entry` trampoline makes, in order. -/
inductive TEvent (α : Type) where
  | callClosure
  | exitCall (result : Boxed α)
  | yieldCall
  deriving Repr, DecidableEq

/-- Mirrors `kernel_thread_entry` in `spawn`: unbox and invoke the
closure `f`, box its return value, call `pool.exit` with that box as
the result payload, then call `yield_now()`. -/
def kernel_thread_entry {α : Type} (f : Unit → α) : List (TEvent α) :=
  let ret : Boxed α := { val := f () }
  [TEvent.callClosure, TEvent.exitCall ret, TEvent.yieldCall]

/-- Mirrors the `unreachable!()` after the final `yield_now()` of
`kernel_thread_entry`: if control ever came back past that yield the
code panics rather than continuing. -/
def kernel_thread_entry_resumed : Except String Unit :=
  .error "internal error: entered unreachable code"

/-! ## Lemmas about the modelled pool -/

/-- The Tids handed out by successive `run` calls are the front of the
ready queue: `runTids` is `take` on `readyq`. -/
theorem ThreadPool.runTids_eq_take (n : Nat) :
    ∀ (p : ThreadPool) (core_id : Nat),
      p.runTids core_id n = p.readyq.take n := by
  induction n with
  | zero => intro p core_id; simp [ThreadPool.runTids]
  | succ n ih =>
    intro p core_id
    match h : p.readyq with
    | [] => simp [ThreadPool.runTids, ThreadPool.run, h]
    | t :: rest =>
      simp [ThreadPool.runTids, ThreadPool.run, h, ih]

/-- `addN` appends the `n` fresh consecutive Tids to the ready queue in
insertion order and advances the Tid counter by `n`. -/
theorem ThreadPool.addN_readyq (n : Nat) :
    ∀ p : ThreadPool,
      (ThreadPool.addN n p).readyq =
        p.readyq ++ List.range' p.next_tid n ∧
      (ThreadPool.addN n p).next_tid = p.next_tid + n := by
  induction n with
  | zero => intro p; simp [ThreadPool.addN]
  | succ n ih =>
    intro p
    obtain ⟨h1, h2⟩ := ih (p.add 0).2
    simp only [ThreadPool.addN]
    constructor
    · rw [h1]
      simp only [ThreadPool.add]
      rw [List.range'_succ]
      simp
    · rw [h2]
      simp only [ThreadPool.add]
      omega

/-! ## Theorems for claims C1 and C5 -/

/-- C1 (spec-modelled): round-robin fairness — after `n` threads are
added to an empty pool and none blocks, `n` successive `run` calls from
a single core return each Tid exactly once, in FIFO order of insertion
(`List.range n`); `run` returns `None` when nothing is Ready, and a
successful `run` selects the least-recently-dispatched Ready thread
(the queue front) and removes it from the Ready set. -/
theorem run_round_robin_fifo (n core_id : Nat) :
    ThreadPool.runTids (ThreadPool.addN n ThreadPool.empty) core_id n =
      List.range n ∧
    (∀ p : ThreadPool, p.readyq = [] → p.run core_id = none) ∧
    (∀ (p p' : ThreadPool) (t : Nat) (c : Option Nat),
      p.run core_id = some ((t, c), p') →
      p.readyq.head? = some t ∧ p'.readyq = p.readyq.tail ∧
      t ∈ p.readyq) := by
  refine ⟨?_, ?_, ?_⟩
  · rw [ThreadPool.runTids_eq_take,
      (ThreadPool.addN_readyq n ThreadPool.empty).1]
    simp [ThreadPool.empty, List.range_eq_range']
  · intro p h
    simp [ThreadPool.run, h]
  · intro p p' t c h
    match hq : p.readyq with
    | [] => simp [ThreadPool.run, hq] at h
    | u :: rest =>
      simp only [ThreadPool.run, hq, Option.some.injEq, Prod.mk.injEq] at h
      obtain ⟨⟨ht, hc⟩, hp'⟩ := h
      subst ht
      refine ⟨rfl, ?_, List.mem_cons_self u rest⟩
      rw [← hp']
      rfl

/-- Witness for C1 at `n = 3`: the three Tids come back as
`[0, 1, 2]`, and `run` on the empty pool returns `None`. -/
theorem run_round_robin_fifo_witness :
    ThreadPool.runTids (ThreadPool.addN 3 ThreadPool.empty) 0 3 =
      List.range 3 ∧
    ThreadPool.empty.run 0 = none :=
  ⟨(run_round_robin_fifo 3 0).1,
   (run_round_robin_fifo 3 0).2.1 ThreadPool.empty rfl⟩

/-- C5: the entry trampoline built by `spawn(f)` invokes `f`, then
calls `pool.exit` with the boxed return value of `f` as the result
payload, then calls `yield_now()`; after the exit the thread is
recorded Exited, it is not in the Ready set, and no sequence of `run`
calls ever returns it again (it is never rescheduled), so that final
yield never returns — and were control ever to come back past it, the
trampoline panics (`unreachable!()`) rather than continuing. -/
theorem spawn_entry_behavior {α : Type} (f : Unit → α) (p : ThreadPool)
    (tid code core_id : Nat) (h : tid ∉ p.readyq) :
    kernel_thread_entry f =
      [TEvent.callClosure, TEvent.exitCall { val := f () },
       TEvent.yieldCall] ∧
    (p.exit tid code).threads tid =
      some { context := none, status := MStatus.exited code } ∧
    tid ∉ (p.exit tid code).readyq ∧
    (∀ n, tid ∉ (p.exit tid code).runTids core_id n) ∧
    kernel_thread_entry_resumed =
      .error "internal error: entered unreachable code" := by
  refine ⟨rfl, by simp [ThreadPool.exit], ?_, ?_, rfl⟩
  · intro hmem
    exact h (List.erase_subset _ _ hmem)
  · intro n hmem
    rw [ThreadPool.runTids_eq_take] at hmem
    exact h (List.erase_subset _ _ (List.take_subset n _ hmem))

/-- Witness for C5 with the closure returning `41`, exiting thread 0
with payload 7 out of the empty pool. -/
theorem spawn_entry_behavior_witness :
    kernel_thread_entry (fun _ => (41 : Nat)) =
      [TEvent.callClosure, TEvent.exitCall { val := 41 },
       TEvent.yieldCall] ∧
    (0 : Nat) ∉ (ThreadPool.empty.exit 0 7).readyq :=
  ⟨(spawn_entry_behavior (fun _ => (41 : Nat)) ThreadPool.empty 0 7 0
      (by simp [ThreadPool.empty])).1,
   (spawn_entry_behavior (fun _ => (41 : Nat)) ThreadPool.empty 0 7 0
      (by simp [ThreadPool.empty])).2.2.1⟩

/-! ## SMP bring-up (`src/arch/x86_64/smp.rs`)

Raw pointers are `Nat` addresses with `0` as null.  Volatile APIC
register writes, busy-wait delays and the writes publishing the startup
handoff data are recorded as an event trace in program order. -/

/-- APIC interrupt command register, low word offset. -/
def APIC_ICR_LOW : Nat := 0x300
/-- APIC interrupt command register, high word offset. -/
def APIC_ICR_HIGH : Nat := 0x310
/-- ICR delivery mode INIT. -/
def DELIVERY_MODE_INIT : Nat := 0x5 <<< 8
/-- ICR delivery mode Startup. -/
def DELIVERY_MODE_STARTUP : Nat := 0x6 <<< 8
/-- ICR level assert bit. -/
def LEVEL_ASSERT : Nat := 1 <<< 14
/-- ICR level-triggered bit. -/
def TRIGGER_MODE_LEVEL : Nat := 1 <<< 15
/-- Physical address of the fixed low-memory trampoline page. -/
def TRAMPOLINE_PADDR : Nat := 0x7000
/-- Startup-IPI vector: the trampoline page number. -/
def TRAMPOLINE_VECTOR : Nat := TRAMPOLINE_PADDR >>> 12
/-- Size of each per-AP startup stack (`AlignedStack`). -/
def AP_STACK_SIZE : Nat := 16 * 1024

/-- The startup-handoff fields `start_one_ap` publishes before sending
any IPI: the shared pool pointer, the processor-table pointer, and the
`AP_STARTUP` block fields. -/
inductive PubField where
  | poolPtr
  | procsPtr
  | stackTop
  | pml4Phys
  | cpuId
  | apicId
  deriving Repr, DecidableEq

/-- One observable step of the bring-up routine, in program order. -/
inductive SmpEvent where
  | publish (field : PubField) (v : Nat)
  | apicWrite (offset v : Nat)
  | delay (n : Nat)
  | readOnline (idx : Nat)
  deriving Repr, DecidableEq

/-- Mirrors `send_init_sipi(apic_id, vector)`: INIT assert, busy-wait,
INIT de-assert, busy-wait, then the Startup IPI twice. -/
def send_init_sipi (apic_id vector : Nat) : List SmpEvent :=
  [SmpEvent.apicWrite APIC_ICR_HIGH (apic_id <<< 24),
   SmpEvent.apicWrite APIC_ICR_LOW
     (DELIVERY_MODE_INIT ||| LEVEL_ASSERT ||| TRIGGER_MODE_LEVEL),
   SmpEvent.delay 10000,
   SmpEvent.apicWrite APIC_ICR_LOW DELIVERY_MODE_INIT,
   SmpEvent.delay 20000,
   SmpEvent.apicWrite APIC_ICR_HIGH (apic_id <<< 24),
   SmpEvent.apicWrite APIC_ICR_LOW (DELIVERY_MODE_STARTUP ||| vector),
   SmpEvent.delay 20000,
   SmpEvent.apicWrite APIC_ICR_HIGH (apic_id <<< 24),
   SmpEvent.apicWrite APIC_ICR_LOW (DELIVERY_MODE_STARTUP ||| vector)]

/-- Mirrors `start_one_ap(ap_index, apic_id, pool, procs_ptr)`: publish
the shared pool and processor-table pointers and the `AP_STARTUP` block
(stack top of `AP_STACKS[ap_index]`, pml4, cpu id, apic id), then issue
the INIT/SIPI sequence, then return; `stacks_base` is the address of
`AP_STACKS`. -/
def start_one_ap (ap_index apic_id pool_ptr procs_ptr stacks_base : Nat) :
    List SmpEvent :=
  [SmpEvent.publish PubField.poolPtr pool_ptr,
   SmpEvent.publish PubField.procsPtr procs_ptr,
   SmpEvent.publish PubField.stackTop
     (stacks_base + ap_index * AP_STACK_SIZE + AP_STACK_SIZE),
   SmpEvent.publish PubField.pml4Phys 0,
   SmpEvent.publish PubField.cpuId ap_index,
   SmpEvent.publish PubField.apicId apic_id]
  ++ send_init_sipi apic_id TRAMPOLINE_VECTOR

/-- Whether an event is a publish of startup/handoff state. -/
def SmpEvent.isPub : SmpEvent → Bool
  | .publish _ _ => true
  | _ => false

/-- Whether an event reads a CpuDescriptor online flag. -/
def SmpEvent.isReadOnline : SmpEvent → Bool
  | .readOnline _ => true
  | _ => false

/-- The values written to `APIC_ICR_LOW`, in order. -/
def icrLowValues (tr : List SmpEvent) : List Nat :=
  tr.filterMap fun e =>
    match e with
    | .apicWrite off v => if off = APIC_ICR_LOW then some v else none
    | _ => none

/-- Mirrors the per-core CPU descriptor `CpuInfo` (the atomic online
flag as a plain `Nat`, since only one core ever writes it). -/
structure MCpuInfo where
  id : Nat
  apic_id : Nat
  online : Nat
  deriving Repr, DecidableEq

/-- Replace the element at index `i` by `f` applied to it; out-of-range
indices leave the list unchanged. -/
def listModify {α : Type} (f : α → α) : Nat → List α → List α
  | _, [] => []
  | 0, a :: t => f a :: t
  | n + 1, a :: t => a :: listModify f n t

/-- How the entry routine of an AP finishes. -/
inductive ApOutcome where
  | halted
  | dispatchLoop
  deriving Repr, DecidableEq

/-- Mirrors `ap_trampoline_entry` on cpu `cpu_id`: record apic id and
flip `online` in this core's descriptor, then check the shared
pool pointer, the processor-table pointer and the freshly created loop
context pointer in turn — halting in a tight loop at the first null one
— dereferencing (recorded in the returned list) only pointers already
checked non-null; with all three non-null the core enters its dispatch
loop.  Returns (outcome, updated CPU table, dereferenced addresses). -/
def ap_trampoline_entry (pool_ptr procs_ptr loop_ctx_ptr : Nat)
    (cpus : List MCpuInfo) (cpu_id apic_id : Nat) :
    ApOutcome × List MCpuInfo × List Nat :=
  let cpus1 := listModify
    (fun c => { c with apic_id := apic_id, online := 1 }) cpu_id cpus
  if pool_ptr = 0 then (.halted, cpus1, [])
  else if procs_ptr = 0 then (.halted, cpus1, [pool_ptr])
  else if loop_ctx_ptr = 0 then (.halted, cpus1, [pool_ptr, procs_ptr])
  else (.dispatchLoop, cpus1, [pool_ptr, procs_ptr, loop_ctx_ptr])

/-- Entries other than the modified one are untouched. -/
theorem listModify_get_ne {α : Type} (f : α → α) (i : Nat) :
    ∀ (l : List α) (j : Nat), j ≠ i →
      (listModify f i l).get? j = l.get? j := by
  induction i with
  | zero =>
    intro l j hj
    cases l with
    | nil => rfl
    | cons a t =>
      cases j with
      | zero => exact absurd rfl hj
      | succ j => rfl
  | succ i ih =>
    intro l j hj
    cases l with
    | nil => rfl
    | cons a t =>
      cases j with
      | zero => rfl
      | succ j =>
        simpa [listModify] using ih t j (fun h => hj (by omega))

/-! ## Theorems for claims C6 and C7 -/

/-- C6: if the shared pool pointer or the processor-table pointer is
null when the AP reaches its check, `ap_trampoline_entry` halts in a
tight loop and dereferences no null pointer; the CPU-table entries of
every other core are untouched (the halt is local to this core); and
when both pointers are non-null (and the loop-context pointer, a
`Box::into_raw` result, is non-null as Rust guarantees) the halt
branches are unreachable — the core enters its dispatch loop. -/
theorem ap_null_check_halts (pool_ptr procs_ptr loop_ctx_ptr : Nat)
    (cpus : List MCpuInfo) (cpu_id apic_id : Nat) :
    (pool_ptr = 0 →
      (ap_trampoline_entry pool_ptr procs_ptr loop_ctx_ptr cpus
        cpu_id apic_id).1 = ApOutcome.halted ∧
      (0 : Nat) ∉ (ap_trampoline_entry pool_ptr procs_ptr loop_ctx_ptr
        cpus cpu_id apic_id).2.2) ∧
    (pool_ptr ≠ 0 → procs_ptr = 0 →
      (ap_trampoline_entry pool_ptr procs_ptr loop_ctx_ptr cpus
        cpu_id apic_id).1 = ApOutcome.halted ∧
      (0 : Nat) ∉ (ap_trampoline_entry pool_ptr procs_ptr loop_ctx_ptr
        cpus cpu_id apic_id).2.2) ∧
    (pool_ptr ≠ 0 → procs_ptr ≠ 0 → loop_ctx_ptr ≠ 0 →
      (ap_trampoline_entry pool_ptr procs_ptr loop_ctx_ptr cpus
        cpu_id apic_id).1 = ApOutcome.dispatchLoop) ∧
    (∀ j, j ≠ cpu_id →
      (ap_trampoline_entry pool_ptr procs_ptr loop_ctx_ptr cpus
        cpu_id apic_id).2.1.get? j = cpus.get? j) := by
  refine ⟨?_, ?_, ?_, ?_⟩
  · intro h
    simp [ap_trampoline_entry, h]
  · intro h1 h2
    have h0 : ¬ ((0 : Nat) = pool_ptr) := fun h => h1 h.symm
    simp [ap_trampoline_entry, h1, h2, h0]
  · intro h1 h2 h3
    simp [ap_trampoline_entry, h1, h2, h3]
  · intro j hj
    simp only [ap_trampoline_entry]
    split_ifs <;>
      exact listModify_get_ne
        (fun c => { c with apic_id := apic_id, online := 1 }) cpu_id
        cpus j hj

/-- Witness for C6: a null pool pointer halts CPU 1 leaving CPU 0's
descriptor untouched, and with all pointers non-null the core reaches
its dispatch loop. -/
theorem ap_null_check_halts_witness :
    (ap_trampoline_entry 0 5 6
      [{ id := 0, apic_id := 0, online := 0 },
       { id := 1, apic_id := 0, online := 0 }] 1 9).1 =
      ApOutcome.halted ∧
    (ap_trampoline_entry 0 5 6
      [{ id := 0, apic_id := 0, online := 0 },
       { id := 1, apic_id := 0, online := 0 }] 1 9).2.1.get? 0 =
      some { id := 0, apic_id := 0, online := 0 } ∧
    (ap_trampoline_entry 4 5 6 [] 0 9).1 = ApOutcome.dispatchLoop :=
  ⟨((ap_null_check_halts 0 5 6
      [{ id := 0, apic_id := 0, online := 0 },
       { id := 1, apic_id := 0, online := 0 }] 1 9).1 rfl).1,
   (ap_null_check_halts 0 5 6
      [{ id := 0, apic_id := 0, online := 0 },
       { id := 1, apic_id := 0, online := 0 }] 1 9).2.2.2 0 (by decide),
   (ap_null_check_halts 4 5 6 [] 0 9).2.2.1 (by decide) (by decide)
     (by decide)⟩

/-- C7: `start_one_ap` first publishes the startup-data block (stack
top, cpu id, apic id, and also the pml4 field) and the shared pool and
processor-table pointers, and only then issues the IPI sequence, whose
writes to `ICR_LOW` are, in order: INIT assert, INIT de-assert, then
the Startup IPI twice (with busy-wait delays in between); the routine
performs no read of any CpuDescriptor online flag before returning. -/
theorem start_one_ap_sequence
    (ap_index apic_id pool_ptr procs_ptr stacks_base : Nat) :
    (start_one_ap ap_index apic_id pool_ptr procs_ptr
        stacks_base).takeWhile SmpEvent.isPub =
      [SmpEvent.publish PubField.poolPtr pool_ptr,
       SmpEvent.publish PubField.procsPtr procs_ptr,
       SmpEvent.publish PubField.stackTop
         (stacks_base + ap_index * AP_STACK_SIZE + AP_STACK_SIZE),
       SmpEvent.publish PubField.pml4Phys 0,
       SmpEvent.publish PubField.cpuId ap_index,
       SmpEvent.publish PubField.apicId apic_id] ∧
    (start_one_ap ap_index apic_id pool_ptr procs_ptr
        stacks_base).dropWhile SmpEvent.isPub =
      send_init_sipi apic_id TRAMPOLINE_VECTOR ∧
    icrLowValues (send_init_sipi apic_id TRAMPOLINE_VECTOR) =
      [DELIVERY_MODE_INIT ||| LEVEL_ASSERT ||| TRIGGER_MODE_LEVEL,
       DELIVERY_MODE_INIT,
       DELIVERY_MODE_STARTUP ||| TRAMPOLINE_VECTOR,
       DELIVERY_MODE_STARTUP ||| TRAMPOLINE_VECTOR] ∧
    (∀ e ∈ start_one_ap ap_index apic_id pool_ptr procs_ptr stacks_base,
      e.isReadOnline = false) := by
  refine ⟨rfl, rfl, rfl, ?_⟩
  have hall : ((start_one_ap ap_index apic_id pool_ptr procs_ptr
      stacks_base).all fun e => !e.isReadOnline) = true := rfl
  intro e he
  have := List.all_eq_true.mp hall e he
  simpa using this

/-- Witness for C7: the ICR_LOW write sequence at apic id 9 and the
head publish event of a concrete call, which is not an online-flag
read. -/
theorem start_one_ap_sequence_witness :
    icrLowValues (send_init_sipi 9 TRAMPOLINE_VECTOR) =
      [DELIVERY_MODE_INIT ||| LEVEL_ASSERT ||| TRIGGER_MODE_LEVEL,
       DELIVERY_MODE_INIT,
       DELIVERY_MODE_STARTUP ||| TRAMPOLINE_VECTOR,
       DELIVERY_MODE_STARTUP ||| TRAMPOLINE_VECTOR] ∧
    SmpEvent.isReadOnline (SmpEvent.publish PubField.poolPtr 4) = false :=
  ⟨(start_one_ap_sequence 1 9 4 5 4096).2.2.1,
   (start_one_ap_sequence 1 9 4 5 4096).2.2.2
     (SmpEvent.publish PubField.poolPtr 4) (by decide)⟩

 end SOS
